import Mathlib

/-!
Verification of the URL Reputation plugin
(`plugins/url_reputation/url_reputation.py`).

The development shallowly embeds the decision engine: the configuration
model `URLReputationConfig`, the decision data shapes
(`PluginViolation`, `ResourcePreFetchResult`), the URL normalisation
performed via `urllib.parse.urlparse` (scheme and hostname extraction,
lower-casing), the reference (Python) evaluator `resource_pre_fetch`,
the accelerated-backend selector with its fail-open path, and a
spec-modelled accelerated evaluator used for the equivalence contract.
-/

namespace URLRep

/-! ## String helpers

Python string operations used by the plugin, embedded over `List Char`
so that everything reduces by computation. -/

/-- Does `pre` occur at the very front of `l`?  (Python `str.startswith`
restricted to the list-of-characters view.) -/
def leadMatch : List Char → List Char → Bool
  | [], _ => true
  | _ :: _, [] => false
  | a :: pre, b :: l => a == b && leadMatch pre l

/-- Does `needle` occur contiguously anywhere inside `hay`?
Embeds the Python substring test `needle in hay`. -/
def containsSub : List Char → List Char → Bool
  | needle, [] => leadMatch needle []
  | needle, b :: hay => leadMatch needle (b :: hay) || containsSub needle hay

/-- Python `needle in hay` on strings: contiguous substring test. -/
def strContains (hay needle : String) : Bool :=
  containsSub needle.toList hay.toList

/-- Lower-casing of a string, character by character (Python
`str.lower` on the ASCII range the plugin's comparisons rely on). -/
def strLower (s : String) : String :=
  String.mk (s.toList.map Char.toLower)

/-- Does `suffix` occur at the very end of `l`?  (Python
`str.endswith` on the list-of-characters view.) -/
def tailMatch (l suffix : List Char) : Bool :=
  leadMatch suffix.reverse l.reverse

/-- Python `s.endswith(suffix)`. -/
def strEndsWith (s suffix : String) : Bool :=
  tailMatch s.toList suffix.toList

/-- Split a character list at every occurrence of `sep` (Python
`str.split(sep)` for a one-character separator). -/
def splitListBy (sep : Char) : List Char → List (List Char)
  | [] => [[]]
  | c :: rest =>
    let r := splitListBy sep rest
    if c == sep then [] :: r
    else
      match r with
      | [] => [[c]]
      | h :: t => (c :: h) :: t

/-! ## URL parsing

Embedding of the fragment of `urllib.parse.urlparse` the plugin uses:
`parsed.scheme` and `parsed.hostname`.  CPython recognises a scheme when
the URL has a `:` preceded by a non-empty run of scheme characters whose
first character is a letter; the scheme is returned lower-cased.  The
network location is the chunk between a leading `//` and the next
`/`, `?` or `#`; the hostname is the part of the netloc after the last
`@`, inside brackets if present and otherwise before the first `:`,
lower-cased (`None`, i.e. `""` here, when empty). -/

/-- Characters allowed in a URL scheme after the initial letter. -/
def schemeChar (c : Char) : Bool :=
  c.isAlpha || c.isDigit || c == '+' || c == '-' || c == '.'

/-- Scan for the `:` ending a scheme; `acc` holds the scheme read so far,
reversed.  Returns the scheme characters (in order) and the remainder. -/
def schemeSplitAux : List Char → List Char → Option (List Char × List Char)
  | _, [] => none
  | acc, c :: rest =>
    if c == ':' then
      if acc.isEmpty then none else some (acc.reverse, rest)
    else if schemeChar c then
      schemeSplitAux (c :: acc) rest
    else
      none

/-- Scheme recognition of `urlparse`: lower-cased scheme and the rest of
the URL, or `("", url)` if no scheme is present. -/
def splitScheme (url : String) : String × String :=
  match url.toList with
  | [] => ("", url)
  | c :: _ =>
    if c.isAlpha then
      match schemeSplitAux [] url.toList with
      | some (sch, rest) => (strLower (String.mk sch), String.mk rest)
      | none => ("", url)
    else ("", url)

/-- The netloc: present only when the post-scheme part starts with `//`,
extending to the next `/`, `?` or `#`. -/
def netlocOf (rest : String) : String :=
  if leadMatch ['/', '/'] rest.toList then
    String.mk ((rest.toList.drop 2).takeWhile
      (fun c => !(c == '/') && !(c == '?') && !(c == '#')))
  else ""

/-- Hostname extraction from a netloc: drop userinfo (up to the last
`@`), then the bracketed form for IPv6 or everything before the first
`:` otherwise; lower-cased. -/
def hostFromNetloc (netloc : String) : String :=
  let hostinfo := (splitListBy '@' netloc.toList).getLastD []
  let h :=
    if leadMatch ['['] hostinfo then
      (hostinfo.drop 1).takeWhile (fun c => !(c == ']'))
    else
      hostinfo.takeWhile (fun c => !(c == ':'))
  strLower (String.mk h)

/-- Embeds `urlparse(url).scheme` (already lower-cased by CPython). -/
def schemeOf (url : String) : String := (splitScheme url).1

/-- Embeds `(urlparse(url).hostname or "").lower()` exactly as read by
the plugin: the empty string stands for Python's `None`. -/
def hostOf (url : String) : String :=
  hostFromNetloc (netlocOf (splitScheme url).2)

/-! ## Data model -/

/-- Violation record attached to a blocking decision.  The shape is
shared with the host framework; `details` is the string-keyed map of
the source, rendered as an association list. -/
structure PluginViolation where
  reason : String
  description : String
  code : String
  details : List (String × String)
deriving Repr, DecidableEq

/-- Decision returned by the hook: proceed or not, with an optional
violation.  Mirrors `ResourcePreFetchResult(continue_processing=...,
violation=...)`; `violation` defaults to absent. -/
structure ResourcePreFetchResult where
  continue_processing : Bool
  violation : Option PluginViolation := none
deriving Repr, DecidableEq

/-- Configuration of the plugin, one field per `pydantic` field of
`URLReputationConfig` (lines 46-77) with the same defaults.  The Python
sets are rendered as lists (the evaluator only tests membership, so
order and duplication are irrelevant); the float threshold is rendered
as a rational. -/
structure URLReputationConfig where
  whitelist_domains : List String := []
  allowed_patterns : List String := []
  blocked_domains : List String := []
  blocked_patterns : List String := []
  use_heuristic_check : Bool := false
  entropy_threshold : ℚ := mkRat 73 20
  block_non_secure_http : Bool := true
deriving Repr, DecidableEq

/-- Construction of `URLReputationConfig` from the seven field values.
The source class (lines 46-77) declares only `Field` defaults and no
validator of any kind, and `URLReputationPlugin.__init__` (lines 83-95)
does nothing beyond instantiating it, so for type-correct field values
construction always succeeds: no constraint on `entropy_threshold`, and
no parsing or well-formedness check of any pattern entry, is performed.
The `Except` codomain records that no configuration error is raised. -/
def URLReputationConfig.construct (wl ap bd bp : List String) (uh : Bool)
    (et : ℚ) (bn : Bool) : Except String URLReputationConfig :=
  Except.ok ⟨wl, ap, bd, bp, uh, et, bn⟩

/-! ## The reference (Python) evaluator -/

/-- Host-against-domain test of the source, line 124 and line 141:
`host == d or host.endswith("." + d)`. -/
def domainMatch (host d : String) : Bool :=
  host == d || strEndsWith host ("." ++ d)

/-- The guarded domain-list test of lines 124 and 141:
`host and any(host == d or host.endswith("." + d) for d in normalized)`
where `normalized` lower-cases every configured entry. -/
def domainListMatch (host : String) (ds : List String) : Bool :=
  host != "" && ds.any (fun d => domainMatch host (strLower d))

/-- The decision every allowing return site produces:
`ResourcePreFetchResult(continue_processing=True)`. -/
def allowResult : ResourcePreFetchResult := { continue_processing := true }

/-- The method `URLReputationPlugin.resource_pre_fetch`, Python path
(lines 117-165): parse the URL, allow on a whitelist hit, then block non-https
schemes when configured, then block on a blocked-domain hit, then block
on the first blocked pattern occurring (lower-cased) as a substring of
the lower-cased URL, and otherwise allow.  The `allowed_patterns`,
`use_heuristic_check` and `entropy_threshold` fields are never consulted
on this path. -/
def resource_pre_fetch (cfg : URLReputationConfig) (uri : String) :
    ResourcePreFetchResult :=
  let scheme := schemeOf uri
  let host := hostOf uri
  let uriLower := strLower uri
  if domainListMatch host cfg.whitelist_domains then
    allowResult
  else if cfg.block_non_secure_http && scheme != "https" then
    { continue_processing := false
      violation := some
        { reason := "Blocked non secure http url"
          description := "URL " ++ uri ++ " is blocked"
          code := "URL_REPUTATION_BLOCK"
          details := [("url", uri)] } }
  else if domainListMatch host cfg.blocked_domains then
    { continue_processing := false
      violation := some
        { reason := "Blocked domain"
          description := "Domain " ++ host ++ " is blocked"
          code := "URL_REPUTATION_BLOCK"
          details := [("domain", host)] } }
  else
    match cfg.blocked_patterns.find? (fun pat => strContains uriLower (strLower pat)) with
    | some pat =>
      { continue_processing := false
        violation := some
          { reason := "Blocked pattern"
            description := "URL matches blocked pattern: " ++ pat
            code := "URL_REPUTATION_BLOCK"
            details := [("pattern", pat)] }}
    | none => allowResult

/-! ## Spec-modelled accelerated evaluator

The accelerated (Rust) backend `url_reputation_rust` is part of the
repository but its source is not available here; only its caller (lines
107-115) and the benchmark harness are.  The definitions below model it
from the specification: §4.3 fixes the ordered decision chain
(whitelist, allowed pattern, scheme policy, blocked domain, blocked
pattern, entropy heuristic, default allow) and §4.5 fixes the
equivalence contract with the reference evaluator, so the shared rules
reuse the reference evaluator's matching and violation shapes. -/

/-- Regular-expression matching at the head of a string, with fuel
(`fuel` strictly exceeding pattern length plus string length always
suffices).  Supports the constructs the configuration patterns use:
literal characters, the any-character dot, and the Kleene star on the
preceding atom — the fragment of Python `re` exercised by the plugin's
pattern entries. -/
def reMatchFuel : Nat → List Char → List Char → Bool
  | 0, _, _ => false
  | _ + 1, [], _ => true
  | fuel + 1, c :: '*' :: p, s =>
    reMatchFuel fuel p s ||
      (match s with
       | [] => false
       | d :: s2 => (c == '.' || c == d) && reMatchFuel fuel (c :: '*' :: p) s2)
  | _ + 1, _ :: _, [] => false
  | fuel + 1, c :: p, d :: s => (c == '.' || c == d) && reMatchFuel fuel p s

/-- Match a pattern at the head of a string, fully fuelled. -/
def reMatchAt (p s : List Char) : Bool :=
  reMatchFuel (p.length + s.length + 1) p s

/-- Unanchored search: match at some position, as Python `re.search`. -/
def reSearchAux : List Char → List Char → Bool
  | p, [] => reMatchAt p []
  | p, s@(_ :: s2) => reMatchAt p s || reSearchAux p s2

/-- Unanchored regular-expression search over strings. -/
def reSearch (pat s : String) : Bool :=
  reSearchAux pat.toList s.toList

/-- The distinct characters of a list, in order of first occurrence. -/
def distinctChars (l : List Char) : List Char :=
  l.foldl (fun acc c => if acc.contains c then acc else acc ++ [c]) []

/-- Multiplicity of each distinct character of `l`, the character
distribution that the Shannon entropy of §4.4 is computed over. -/
def charCounts (l : List Char) : List Nat :=
  (distinctChars l).map (fun c => l.count c)

/-- Modelled from the spec (§4.4): exact decision of whether the base-2
Shannon entropy of a character distribution with multiplicities
`counts` strictly exceeds the rational threshold `t`.  With
`n = counts.sum`, the entropy is `(n * log2 n - sum (c * log2 c)) / n`,
and comparing it with `t.num / t.den` and clearing logarithms gives the
equivalent integer inequality `n ^ (t.den * n) > 2 ^ (t.num * n) *
prod (c ^ (t.den * c))`, stated below with the sign of `t.num` handled
so that all exponents are natural numbers. -/
def entropyGt (counts : List Nat) (t : ℚ) : Bool :=
  let n := counts.sum
  if n == 0 then false
  else
    let q := t.den
    let lhs := n ^ (q * n)
    let prod := (counts.map (fun c => c ^ (q * c))).prod
    if 0 ≤ t.num then
      decide (2 ^ (t.num.toNat * n) * prod < lhs)
    else
      decide (prod < 2 ^ ((-t.num).toNat * n) * lhs)

/-- Rejoin dot-separated parts with dots (list-level intercalate). -/
def joinDots : List (List Char) → List Char
  | [] => []
  | [x] => x
  | x :: xs => x ++ '.' :: joinDots xs

/-- Modelled from the spec (§4.4, §4.3 rule 6): the significant label(s)
of a host, the portion before the final (top-level) dot-separated
component; the whole host when it has a single label. -/
def sigLabel (host : String) : String :=
  let parts := splitListBy '.' host.toList
  if parts.length ≤ 1 then host
  else String.mk (joinDots parts.dropLast)

/-- Modelled from the spec: the accelerated evaluator
(`url_reputation_rust.URLReputationPlugin.validate_url_py`), whose
source is not in the repository snapshot.  It follows the ordered chain
of §4.3: whitelist domain allow, allowed-pattern allow (patterns
checked against the raw URL, case-insensitively), scheme policy block,
blocked-domain block, blocked-pattern block, entropy-heuristic block
(only when enabled), default allow.  Shared rules produce the same
violations as the reference evaluator per the §4.5 equivalence
contract; blocked patterns are matched as substrings (§4.3 rule 5
allows substring or regex matching, and the equivalence contract pins
the reference evaluator's substring semantics); host normalisation is
lower-casing (punycode decoding and homograph analysis of §4.2 are not
modelled — no claim depends on them).  The heuristic block's
reason/code are spec-modelled placeholders: the spec fixes only that
they are heuristic-specific. -/
def rust_validate_url (cfg : URLReputationConfig) (uri : String) :
    ResourcePreFetchResult :=
  let scheme := schemeOf uri
  let host := hostOf uri
  let uriLower := strLower uri
  if domainListMatch host cfg.whitelist_domains then
    allowResult
  else if cfg.allowed_patterns.any (fun p => reSearch (strLower p) uriLower) then
    allowResult
  else if cfg.block_non_secure_http && scheme != "https" then
    { continue_processing := false
      violation := some
        { reason := "Blocked non secure http url"
          description := "URL " ++ uri ++ " is blocked"
          code := "URL_REPUTATION_BLOCK"
          details := [("url", uri)] } }
  else if domainListMatch host cfg.blocked_domains then
    { continue_processing := false
      violation := some
        { reason := "Blocked domain"
          description := "Domain " ++ host ++ " is blocked"
          code := "URL_REPUTATION_BLOCK"
          details := [("domain", host)] } }
  else
    match cfg.blocked_patterns.find? (fun pat => strContains uriLower (strLower pat)) with
    | some pat =>
      { continue_processing := false
        violation := some
          { reason := "Blocked pattern"
            description := "URL matches blocked pattern: " ++ pat
            code := "URL_REPUTATION_BLOCK"
            details := [("pattern", pat)] }}
    | none =>
      if cfg.use_heuristic_check &&
          entropyGt (charCounts (sigLabel host).toList) cfg.entropy_threshold then
        { continue_processing := false
          violation := some
            { reason := "Suspicious high-entropy domain"
              description := "Domain " ++ host ++ " exceeds the entropy threshold"
              code := "URL_REPUTATION_HEURISTIC_BLOCK"
              details := [("domain", host)] } }
      else allowResult

/-! ## Engine selection and fail-open fallback -/

/-- One call through the selector of lines 107-115.  `rust_available`
embeds the module-level `_RUST_AVAILABLE` flag probed at import time;
`rust_fails` embeds whether this particular accelerated call raises.
When available and not failing, the accelerated result is returned;
when available and failing, the except clause only logs and returns
`ResourcePreFetchResult(continue_processing=True)` — the fail-open
decision; otherwise the Python path runs.  The second component is the
availability flag after the call: no branch of the source assigns
`_RUST_AVAILABLE`, so it is returned unchanged. -/
def selected_resource_pre_fetch (rust_available rust_fails : Bool)
    (cfg : URLReputationConfig) (uri : String) :
    ResourcePreFetchResult × Bool :=
  if rust_available then
    if rust_fails then (allowResult, rust_available)
    else (rust_validate_url cfg uri, rust_available)
  else (resource_pre_fetch cfg uri, rust_available)

/-! ## Helper lemmas -/

/-- The empty character list occurs in every list. -/
theorem containsSub_nil (hay : List Char) : containsSub [] hay = true := by
  cases hay <;> simp [containsSub, leadMatch]

/-- The empty string is a substring of every string: Python
`"" in s` is always true, which is how an empty configured pattern
matches every URL. -/
theorem strContains_empty (s : String) : strContains s "" = true :=
  containsSub_nil _

/-- Every decision of the reference evaluator carries a violation
exactly when it does not continue processing. -/
theorem resource_pre_fetch_violation_iff (cfg : URLReputationConfig) (uri : String) :
    ((resource_pre_fetch cfg uri).violation).isSome
      = !((resource_pre_fetch cfg uri).continue_processing) := by
  simp only [resource_pre_fetch]
  split
  · rfl
  split
  · rfl
  split
  · rfl
  split <;> rfl

/-- Every decision of the spec-modelled accelerated evaluator carries a
violation exactly when it does not continue processing. -/
theorem rust_validate_url_violation_iff (cfg : URLReputationConfig) (uri : String) :
    ((rust_validate_url cfg uri).violation).isSome
      = !((rust_validate_url cfg uri).continue_processing) := by
  simp only [rust_validate_url]
  split
  · rfl
  split
  · rfl
  split
  · rfl
  split
  · rfl
  split
  · rfl
  split <;> rfl

/-! ## Claim theorems -/

/-- C1, counterexample: with `allowed_patterns = ["admin"]` and
`blocked_patterns = ["admin"]`, the URL `https://example.com/admin`
matches the allowed pattern (against the raw URL, case-insensitively,
both as a substring and as a regular expression), yet the evaluation
blocks it — the claim's allow Decision does not happen. -/
theorem c1_counterexample :
    strContains (strLower "https://example.com/admin") "admin" = true ∧
    reSearch "admin" (strLower "https://example.com/admin") = true ∧
    (resource_pre_fetch
        { allowed_patterns := ["admin"], blocked_patterns := ["admin"] }
        "https://example.com/admin").continue_processing = false := by
  decide

/-- C1, amended: the reference evaluation never consults
`allowed_patterns` (the Python path implements basic features only), so
the decision is invariant under any change of that field; a URL
matching an allowed pattern is allowed only when no blocking rule
fires. -/
theorem c1_allowed_patterns_ignored (cfg : URLReputationConfig)
    (pats : List String) (uri : String) :
    resource_pre_fetch { cfg with allowed_patterns := pats } uri
      = resource_pre_fetch cfg uri := rfl

/-- C2, counterexample: with the empty string as a configured whitelist
domain, the URL `http://` has parsed host equal to that domain, yet the
evaluation blocks it (the whitelist test is guarded by the host being
non-empty, and the scheme policy then fires). -/
theorem c2_counterexample :
    "" ∈ ({ whitelist_domains := [""] } : URLReputationConfig).whitelist_domains ∧
    hostOf "http://" = "" ∧
    (resource_pre_fetch { whitelist_domains := [""] }
        "http://").continue_processing = false := by
  decide

/-- C2, amended: for every configured whitelist domain `d` and every URL
whose parsed host is non-empty and equals `d` or is a subdomain of `d`
(case-insensitively), the evaluation allows, regardless of the blocked
domains, blocked patterns, heuristic and scheme-policy configuration —
in particular a whitelisted host over non-https is allowed. -/
theorem c2_whitelist_allows (cfg : URLReputationConfig) (d uri : String)
    (hd : d ∈ cfg.whitelist_domains) (hh : hostOf uri ≠ "")
    (hm : domainMatch (hostOf uri) (strLower d) = true) :
    resource_pre_fetch cfg uri = { continue_processing := true, violation := none } := by
  have hne : (hostOf uri != "") = true := bne_iff_ne.mpr hh
  have hany : cfg.whitelist_domains.any
      (fun d2 => domainMatch (hostOf uri) (strLower d2)) = true :=
    List.any_eq_true.mpr ⟨d, hd, hm⟩
  have hw : domainListMatch (hostOf uri) cfg.whitelist_domains = true := by
    simp [domainListMatch, hne, hany]
  simp [resource_pre_fetch, hw, allowResult]

/-- C2 witness: `Example.COM` whitelisted allows
`http://sub.example.com/x` even with the same domain blocklisted, an
all-matching blocked pattern, and the scheme policy on. -/
theorem c2_whitelist_allows_witness :
    resource_pre_fetch
        { whitelist_domains := ["Example.COM"],
          blocked_domains := ["example.com"],
          blocked_patterns := [""] }
        "http://sub.example.com/x"
      = { continue_processing := true, violation := none } :=
  c2_whitelist_allows _ "Example.COM" _ (by decide) (by decide) (by decide)

/-- C3: when the accelerated backend is selected and the call into it
raises, the result of that single call is the fail-open Decision
(continue, no violation), and — for every combination of availability
and failure — the availability selection is returned unchanged for
subsequent calls. -/
theorem c3_fail_open (avail fails : Bool) (cfg : URLReputationConfig) (uri : String) :
    (selected_resource_pre_fetch true true cfg uri).1
      = { continue_processing := true, violation := none } ∧
    (selected_resource_pre_fetch avail fails cfg uri).2 = avail := by
  refine ⟨rfl, ?_⟩
  cases avail <;> cases fails <;> rfl

/-- C4: evaluating `https://example.com/admin/dashboard` under
`blocked_patterns = [".*admin.*", ".*login.*"]` does NOT block — the
evaluation allows it, because patterns are compared as literal
substrings of the lower-cased URL and the literal text `.*admin.*`
does not occur in it, although as a regular expression it matches.
This contradicts the claim and the repository's own
`test_blocked_pattern_url`, which assert a block with reason
"Blocked pattern". -/
theorem c4_code_eval :
    resource_pre_fetch { blocked_patterns := [".*admin.*", ".*login.*"] }
        "https://example.com/admin/dashboard"
      = { continue_processing := true, violation := none } ∧
    strContains "https://example.com/admin/dashboard" ".*admin.*" = false ∧
    reSearch ".*admin.*" "https://example.com/admin/dashboard" = true := by
  decide

/-- C5: with `use_heuristic_check = true` and `entropy_threshold = 2.5`,
evaluating `https://ajsd9a8sd7a98sda7sd9.com` does NOT block: the
reference evaluation allows it because the Python path implements no
entropy heuristic at all.  The spec-modelled accelerated evaluator
blocks the same input (the label's base-2 Shannon entropy, about 2.68,
exceeds the threshold), matching the repository's own
`test_high_entropy_domain_blocked`, which the code therefore
contradicts. -/
theorem c5_code_eval :
    resource_pre_fetch { use_heuristic_check := true, entropy_threshold := mkRat 5 2 }
        "https://ajsd9a8sd7a98sda7sd9.com"
      = { continue_processing := true, violation := none } ∧
    (rust_validate_url { use_heuristic_check := true, entropy_threshold := mkRat 5 2 }
        "https://ajsd9a8sd7a98sda7sd9.com").continue_processing = false := by
  constructor
  · decide
  · decide

/-- C6: for every configuration with the scheme policy on and every URL
that is not whitelist-allowed and whose scheme is not `https`, the
evaluation blocks with reason "Blocked non secure http url", code
`URL_REPUTATION_BLOCK` and details `url ↦ raw URL`; in particular with
everything else empty `http://safe.com` blocks so and
`https://safe.com` allows.  (The evaluation consults no allowed
patterns, so no URL is ever pattern-allowed before this check.) -/
theorem c6_scheme_policy :
    (∀ (cfg : URLReputationConfig) (uri : String),
        cfg.block_non_secure_http = true →
        domainListMatch (hostOf uri) cfg.whitelist_domains = false →
        schemeOf uri ≠ "https" →
        resource_pre_fetch cfg uri
          = { continue_processing := false,
              violation := some
                { reason := "Blocked non secure http url",
                  description := "URL " ++ uri ++ " is blocked",
                  code := "URL_REPUTATION_BLOCK",
                  details := [("url", uri)] } }) ∧
    resource_pre_fetch {} "http://safe.com"
      = { continue_processing := false,
          violation := some
            { reason := "Blocked non secure http url",
              description := "URL http://safe.com is blocked",
              code := "URL_REPUTATION_BLOCK",
              details := [("url", "http://safe.com")] } } ∧
    resource_pre_fetch {} "https://safe.com"
      = { continue_processing := true, violation := none } := by
  refine ⟨?_, by decide, by decide⟩
  intro cfg uri hb hw hs
  have hcond : (cfg.block_non_secure_http && schemeOf uri != "https") = true := by
    simp [hb, bne_iff_ne, hs]
  simp [resource_pre_fetch, hw, hcond]

/-- C6 witness: the universally quantified part applied to a concrete
non-whitelisted ftp URL. -/
theorem c6_scheme_policy_witness :
    resource_pre_fetch { blocked_domains := ["other.net"] } "ftp://other.net/file"
      = { continue_processing := false,
          violation := some
            { reason := "Blocked non secure http url",
              description := "URL ftp://other.net/file is blocked",
              code := "URL_REPUTATION_BLOCK",
              details := [("url", "ftp://other.net/file")] } } :=
  c6_scheme_policy.1 _ "ftp://other.net/file" rfl (by decide) (by decide)

/-- C7, counterexample: constructing the configuration with
`entropy_threshold = -1` and the empty string among `blocked_patterns`
succeeds — no configuration error is raised at construction — and the
resulting plugin is active: it evaluates requests (here blocking via
the empty pattern). -/
theorem c7_counterexample :
    URLReputationConfig.construct [] [] [] [""] false (-1) true
      = Except.ok { blocked_patterns := [""], entropy_threshold := -1 } ∧
    (resource_pre_fetch { blocked_patterns := [""], entropy_threshold := -1 }
        "https://anything.net").continue_processing = false := by
  exact ⟨rfl, by decide⟩

/-- C7, amended: construction performs no validation at all — every
combination of typed field values is accepted, negative entropy
thresholds and empty or arbitrary pattern strings included, and the
plugin becomes active with exactly those values; patterns are never
compiled as regular expressions, so no pattern error can arise either
at construction or per request. -/
theorem c7_no_validation (wl ap bd bp : List String) (uh : Bool) (et : ℚ) (bn : Bool) :
    URLReputationConfig.construct wl ap bd bp uh et bn
      = Except.ok ⟨wl, ap, bd, bp, uh, et, bn⟩ := rfl

/-- C8: across every selection of evaluator (accelerated available or
not, call failing or not), every configuration and every URL, the
returned Decision carries a violation exactly when
`continue_processing` is false; the fail-open result (continue, no
violation) satisfies the same equivalence. -/
theorem c8_invariant (avail fails : Bool) (cfg : URLReputationConfig) (uri : String) :
    ((selected_resource_pre_fetch avail fails cfg uri).1.violation).isSome
      = !((selected_resource_pre_fetch avail fails cfg uri).1.continue_processing) := by
  cases avail <;> cases fails <;> simp only [selected_resource_pre_fetch] <;>
    first
      | exact resource_pre_fetch_violation_iff cfg uri
      | exact rust_validate_url_violation_iff cfg uri
      | rfl

/-- C9, counterexample: with `allowed_patterns = ["admin"]` and
`blocked_patterns = ["admin"]` on `https://site.org/admin`, the
spec-modelled accelerated evaluator allows (allowed-pattern bypass)
while the reference evaluator blocks — their `continue_processing`
differ, so the evaluators are not equivalent. -/
theorem c9_counterexample :
    (rust_validate_url
        { allowed_patterns := ["admin"], blocked_patterns := ["admin"] }
        "https://site.org/admin").continue_processing = true ∧
    (resource_pre_fetch
        { allowed_patterns := ["admin"], blocked_patterns := ["admin"] }
        "https://site.org/admin").continue_processing = false := by
  decide

/-- C9, amended: the evaluators agree — producing identical Decisions,
hence the same `continue_processing` and the same violation reason and
code — on every configuration that exercises only the features the
reference evaluator implements: no allowed patterns and heuristics
disabled. -/
theorem c9_equivalence_restricted (cfg : URLReputationConfig) (uri : String)
    (hap : cfg.allowed_patterns = []) (hh : cfg.use_heuristic_check = false) :
    rust_validate_url cfg uri = resource_pre_fetch cfg uri := by
  simp only [rust_validate_url, resource_pre_fetch, hap, hh, List.any_nil,
    Bool.false_and, Bool.false_eq_true, if_false]

/-- C9 witness: both evaluators produce the same blocking Decision for a
blocked domain. -/
theorem c9_equivalence_restricted_witness :
    rust_validate_url { blocked_domains := ["bad.example"] }
        "https://api.bad.example/v1"
      = resource_pre_fetch { blocked_domains := ["bad.example"] }
          "https://api.bad.example/v1" :=
  c9_equivalence_restricted _ _ rfl rfl

/-- C10, counterexample: with `blocked_patterns = ["a", ""]` the URL
`https://a.com` reaches the blocked-pattern check (not whitelisted,
https scheme, no blocked domain) and is blocked — but with details
`pattern ↦ "a"`, the first matching entry, not `pattern ↦ ""` as the
claim states. -/
theorem c10_counterexample :
    "" ∈ ({ blocked_patterns := ["a", ""] } : URLReputationConfig).blocked_patterns ∧
    domainListMatch (hostOf "https://a.com")
        ({ blocked_patterns := ["a", ""] } : URLReputationConfig).whitelist_domains = false ∧
    schemeOf "https://a.com" = "https" ∧
    domainListMatch (hostOf "https://a.com")
        ({ blocked_patterns := ["a", ""] } : URLReputationConfig).blocked_domains = false ∧
    (resource_pre_fetch { blocked_patterns := ["a", ""] } "https://a.com").violation
      = some { reason := "Blocked pattern",
               description := "URL matches blocked pattern: a",
               code := "URL_REPUTATION_BLOCK",
               details := [("pattern", "a")] } ∧
    [("pattern", "a")] ≠ ([("pattern", "")] : List (String × String)) := by
  decide

/-- C10, amended: when the empty string is among `blocked_patterns`,
every URL that reaches the blocked-pattern check is blocked with reason
"Blocked pattern"; the violation's details name the first matching
entry of the list, which is the empty string itself whenever no earlier
entry matches.  An empty pattern is accepted at construction and blocks
all remaining traffic. -/
theorem c10_empty_pattern_blocks (cfg : URLReputationConfig) (uri : String)
    (he : "" ∈ cfg.blocked_patterns)
    (hw : domainListMatch (hostOf uri) cfg.whitelist_domains = false)
    (hs : (cfg.block_non_secure_http && schemeOf uri != "https") = false)
    (hd : domainListMatch (hostOf uri) cfg.blocked_domains = false) :
    (resource_pre_fetch cfg uri).continue_processing = false ∧
    ∃ v, (resource_pre_fetch cfg uri).violation = some v ∧
      v.reason = "Blocked pattern" := by
  have hfind : (cfg.blocked_patterns.find?
      (fun pat => strContains (strLower uri) (strLower pat))).isSome := by
    rw [List.find?_isSome]
    exact ⟨"", he, strContains_empty _⟩
  obtain ⟨pat, hpat⟩ := Option.isSome_iff_exists.mp hfind
  simp only [resource_pre_fetch, hw, hs, hd, Bool.false_eq_true, if_false, hpat]
  exact ⟨by trivial, _, rfl, rfl⟩

/-- C10 witness: the sole empty pattern blocks a plain https URL. -/
theorem c10_empty_pattern_blocks_witness :
    (resource_pre_fetch { blocked_patterns := [""] }
        "https://plain.org").continue_processing = false ∧
    ∃ v, (resource_pre_fetch { blocked_patterns := [""] }
        "https://plain.org").violation = some v ∧
      v.reason = "Blocked pattern" :=
  c10_empty_pattern_blocks _ _ (by decide) (by decide) (by decide) (by decide)

end URLRep
